import Mathlib

/-!
Shallow embedding of `pipeline_script.py` (ThyroScope): a linear shell-out
pipeline for WES variant calling.  External tools are modelled by a `World`
giving each shell command an exit status, the variant-call file contents at
report time, and the spreadsheet writer's outcome.  The script's observable
behaviour (printed lines, executed commands, computed output paths, process
exit code) is collected in a `Trace`.  `sys.exit(1)` is modelled by the
`Except.error` branch which aborts the rest of `main`.
-/

namespace ThyroScope

/-! ### Configuration constants (pipeline_script.py lines 12-34) -/

def SAMPLE_ID : String := "Patient_Test"

def DATA_DIR : String := "/data"

def REF_DIR : String := "/data/ref"

def PIPELINE_DIR : String := "/pipeline"

def REF_GENOME : String := REF_DIR ++ "/Homo_sapiens_assembly38.fasta"

def TARGET_BED : String := PIPELINE_DIR ++ "/targets.bed"

def TRIMMOMATIC_JAR : String := "/usr/share/java/trimmomatic.jar"

def ADAPTERS : String := "/usr/share/trimmomatic/adapters/TruSeq3-PE.fa"

def BWA : String := "bwa"

def GATK : String := "gatk"

def SAMTOOLS : String := "samtools"

def ANNOVAR_CMD : String := "table_annovar.pl"

/-! ### Derived file paths (lines 70-73, 88, 100, 110-111, 125, 142, 170).
The script hard-codes `DATA_DIR` and `SAMPLE_ID`; the embedding makes them
explicit parameters `d` (base directory) and `s` (sample identifier). -/

def r1_paired (d s : String) : String := d ++ "/" ++ s ++ "_R1_paired.fq.gz"

def r1_unpaired (d s : String) : String := d ++ "/" ++ s ++ "_R1_unpaired.fq.gz"

def r2_paired (d s : String) : String := d ++ "/" ++ s ++ "_R2_paired.fq.gz"

def r2_unpaired (d s : String) : String := d ++ "/" ++ s ++ "_R2_unpaired.fq.gz"

def bam_output (d s : String) : String := d ++ "/" ++ s ++ ".bam"

def sorted_bam (d s : String) : String := d ++ "/" ++ s ++ ".sorted.bam"

def dedup_bam (d s : String) : String := d ++ "/" ++ s ++ ".dedup.bam"

def metrics_file (d s : String) : String := d ++ "/" ++ s ++ ".metrics.txt"

def vcf_output (d s : String) : String := d ++ "/" ++ s ++ ".vcf"

def anno_output (d s : String) : String := d ++ "/" ++ s ++ ".anno"

def excel_output (d s : String) : String := d ++ "/" ++ s ++ "_Clinical_Report.xlsx"

/-! ### Shell command strings (lines 75-81, 89-94, 101, 104, 113-116, 120, 127-134, 144-148) -/

def cmd_trim (d s r1_raw r2_raw : String) : String :=
  "java -jar " ++ TRIMMOMATIC_JAR ++ " PE -threads 4 " ++
  r1_raw ++ " " ++ r2_raw ++ " " ++
  r1_paired d s ++ " " ++ r1_unpaired d s ++ " " ++
  r2_paired d s ++ " " ++ r2_unpaired d s ++ " " ++
  "ILLUMINACLIP:" ++ ADAPTERS ++ ":2:30:10 LEADING:3 TRAILING:3 SLIDINGWINDOW:4:15 MINLEN:36"

def cmd_bwa (d s : String) : String :=
  BWA ++ " mem -t 4 " ++
  "-R \x27@RG\\tID:" ++ s ++ "\\tSM:" ++ s ++ "\\tPL:ILLUMINA\x27 " ++
  REF_GENOME ++ " " ++ r1_paired d s ++ " " ++ r2_paired d s ++ " | " ++
  SAMTOOLS ++ " view -bS - > " ++ bam_output d s

def cmd_sort (d s : String) : String :=
  SAMTOOLS ++ " sort -o " ++ sorted_bam d s ++ " " ++ bam_output d s

def cmd_index (d s : String) : String :=
  SAMTOOLS ++ " index " ++ sorted_bam d s

def cmd_dedup (d s : String) : String :=
  GATK ++ " MarkDuplicates " ++
  "-I " ++ sorted_bam d s ++ " -O " ++ dedup_bam d s ++ " -M " ++ metrics_file d s

def cmd_dedup_index (d s : String) : String :=
  SAMTOOLS ++ " index " ++ dedup_bam d s

def cmd_hc (d s : String) : String :=
  GATK ++ " HaplotypeCaller " ++
  "-R " ++ REF_GENOME ++ " " ++
  "-I " ++ dedup_bam d s ++ " " ++
  "-O " ++ vcf_output d s ++ " " ++
  "-L " ++ TARGET_BED ++ " " ++
  "--interval-padding 100"

def cmd_anno (d s : String) : String :=
  ANNOVAR_CMD ++ " " ++ vcf_output d s ++ " " ++ d ++ "/humandb/ -buildver hg38 " ++
  "-out " ++ anno_output d s ++ " -remove -protocol refGene,cytoBand,gnomad211_exome,clinvar_20221231 " ++
  "-operation g,r,f,f -nastring . -vcfinput"

/-! ### Printed message strings -/

def banner : String := ">>> Starting Thyroid/Parathyroid WES Pipeline (STAR Protocol Compliant) <<<"

def errNoFastq (d : String) : String :=
  "[ERROR] No FASTQ files found in " ++ d ++ ". Please check your data."

def foundMsg (r1 r2 : String) : String := "Found Input Files: " ++ r1 ++ ", " ++ r2

def skipMsg : String :=
  "[INFO] Step 5 (Annotation) skipped in this demo script. (Requires ANNOVAR DB)"

def reportBanner : String := ">>> Generating Clinical Report... <<<"

def finalMsg : String := "\n>>> All Pipeline Steps Completed Successfully! <<<"

def warnReport (e : String) : String := "[WARNING] Could not generate Excel report: " ++ e

def excelSaved (p : String) : String := "[SUCCESS] Excel Report Saved: " ++ p

/-- The message of the dead `except` branch at line 154
(`[WARNING] Annotation step failed or skipped: {e}`).  It occurs nowhere in
the reachable code, which is what claim C10 asserts. -/
def annoWarn (e : String) : String := "[WARNING] Annotation step failed or skipped: " ++ e

/-! ### The external world and the observable trace -/

/-- The behaviour of everything outside the script: the input directory
listing, the exit status the shell returns for each command, the content of
the variant-call file when the report step reads it (`none` = the file is
missing), and the spreadsheet writer outcome (`some e` = `to_excel` raises
with message `e`). -/
structure World where
  files : List String
  exit : String → Nat
  vcfLines : Option (List String)
  excelErr : Option String

/-- The observable behaviour of one run: lines printed to stdout, shell
commands handed to `subprocess.check_call` in order, output paths computed
(in the order the script assigns them), the input pair selected by input
discovery, the spreadsheet written by the report step (header list and
rows), and the process exit code. -/
structure Trace where
  printed : List String
  executed : List String
  paths : List String
  foundInputs : Option (String × String)
  excel : Option (List String × List (List String))
  exitCode : Nat
  deriving DecidableEq

def Trace.init : Trace := ⟨[], [], [], none, none, 0⟩

/-- `print(msg)`. -/
def pr (t : Trace) (msg : String) : Trace := { t with printed := t.printed ++ [msg] }

/-! ### The step runner (lines 39-48) -/

/-- `run_command(cmd, step_name)`: print the info lines, run the command,
and on a non-zero exit status print the error line and `sys.exit(1)`
(modelled by `Except.error`, which aborts the rest of `main`). -/
def run_command (w : World) (t : Trace) (cmd step_name : String) : Except Trace Trace :=
  let t1 := pr (pr t ("\n[INFO] Starting Step: " ++ step_name)) ("Command: " ++ cmd)
  let t2 := { t1 with executed := t1.executed ++ [cmd] }
  if w.exit cmd = 0 then
    Except.ok (pr t2 ("[SUCCESS] " ++ step_name ++ " completed.\n"))
  else
    Except.error { pr t2 ("[ERROR] " ++ step_name ++ " failed.") with exitCode := 1 }

/-! ### The fixed stage list (Steps 0 through 4, lines 66-135).
Each stage records the output paths the script assigns just before the
`run_command` call, the command string, and the display name. -/

structure Stage where
  newPaths : List String
  cmd : String
  name : String
  deriving DecidableEq

def stages (d s r1_raw r2_raw : String) : List Stage :=
  [ ⟨[r1_paired d s, r1_unpaired d s, r2_paired d s, r2_unpaired d s],
      cmd_trim d s r1_raw r2_raw, "0. Trimming (Trimmomatic)"⟩,
    ⟨[bam_output d s], cmd_bwa d s, "1. Alignment (BWA)"⟩,
    ⟨[sorted_bam d s], cmd_sort d s, "2. Sorting (Samtools)"⟩,
    ⟨[], cmd_index d s, "2-1. Indexing"⟩,
    ⟨[dedup_bam d s, metrics_file d s], cmd_dedup d s, "3. Mark Duplicates (GATK)"⟩,
    ⟨[], cmd_dedup_index d s, "3-1. Dedup Indexing"⟩,
    ⟨[vcf_output d s], cmd_hc d s, "4. Variant Calling (GATK HaplotypeCaller)"⟩ ]

def runStages (w : World) : Trace → List Stage → Except Trace Trace
  | t, [] => Except.ok t
  | t, st :: rest =>
    match run_command w { t with paths := t.paths ++ st.newPaths } st.cmd st.name with
    | Except.ok t2 => runStages w t2 rest
    | Except.error t2 => Except.error t2

/-! ### Input discovery (lines 57-64): `sorted(glob.glob(f"{DATA_DIR}/*.fastq.gz"))` -/

/-- `glob` hides dotfiles when the pattern does not start with a dot. -/
def isHidden (f : String) : Bool :=
  match f.data with
  | [] => false
  | c :: _ => c = '.'

/-- The files of the input directory matched by the pattern `*.fastq.gz`,
as full paths (like `glob.glob`, in directory order). -/
def globFastq (d : String) (files : List String) : List String :=
  (files.filter (fun f => List.isSuffixOf ".fastq.gz".data f.data && !(isHidden f))).map
    (fun f => d ++ "/" ++ f)

/-- Code-point comparison of character lists, the order Python `sorted`
uses on strings. -/
def listLe : List Char → List Char → Bool
  | [], _ => true
  | _ :: _, [] => false
  | a :: as, b :: bs =>
    if a.toNat < b.toNat then true
    else if b.toNat < a.toNat then false
    else listLe as bs

def strLe (a b : String) : Bool := listLe a.data b.data

def insertLe (le : String → String → Bool) (a : String) : List String → List String
  | [] => [a]
  | b :: bs => if le a b then a :: b :: bs else b :: insertLe le a bs

/-- Python's `sorted` on a list of strings (any sort that is a sorted
permutation agrees with it, because `strLe` is a total antisymmetric
order). -/
def sortLe (le : String → String → Bool) : List String → List String
  | [] => []
  | a :: as => insertLe le a (sortLe le as)

/-- The sorted matching input files, `sorted(glob.glob(...))` of line 57. -/
def pipelineInputs (d : String) (w : World) : List String :=
  sortLe strLe (globFastq d w.files)

/-- The stage list of a run, with the discovered read files substituted. -/
def stepsOf (d s : String) (w : World) : List Stage :=
  stages d s ((pipelineInputs d w).getD 0 "") ((pipelineInputs d w).getD 1 "")

/-! ### The report step (lines 159-175).
`pd.read_csv(vcf_output, sep="\t", comment='#', names=vcf_cols)` is modelled
from the pandas contract: each line is truncated at the first `#`, lines
that are then empty are skipped, the rest are split on tabs; reading a
missing file or a file with no data rows raises. -/

def vcf_cols : List String :=
  ["CHROM", "POS", "ID", "REF", "ALT", "QUAL", "FILTER", "INFO", "FORMAT", "SAMPLE"]

/-- Truncate a line at the first `#` (pandas `comment='#'`). -/
def stripComment (l : String) : String := String.mk (l.data.takeWhile (fun c => c ≠ '#'))

def splitTabAux : List Char → List (List Char)
  | [] => [[]]
  | c :: cs =>
    let r := splitTabAux cs
    if c = '\t' then [] :: r
    else
      match r with
      | [] => [[c]]
      | h :: rest => (c :: h) :: rest

/-- Split a line into tab-separated fields. -/
def splitTab (l : String) : List String := (splitTabAux l.data).map String.mk

def cleanLines (ls : List String) : List String :=
  (ls.map stripComment).filter (fun l => l ≠ "")

/-- The data rows `read_csv` extracts from the file contents. -/
def parseVcf (ls : List String) : List (List String) := (cleanLines ls).map splitTab

/-- `pd.read_csv` on the variant-call file: raises on a missing file and on
a file with no data rows, otherwise yields the parsed rows. -/
def read_csv (contents : Option (List String)) : Except String (List (List String)) :=
  match contents with
  | none => Except.error "FileNotFoundError"
  | some ls =>
    let rows := parseVcf ls
    if rows = [] then Except.error "EmptyDataError" else Except.ok rows

/-- The `try` block of lines 164-175: read the variant-call file, write it
to the spreadsheet; any exception is caught and downgraded to a printed
warning. -/
def reportStep (d s : String) (w : World) (t : Trace) : Trace :=
  match read_csv w.vcfLines with
  | Except.error e => pr t (warnReport e)
  | Except.ok rows =>
    let t1 := { t with paths := t.paths ++ [excel_output d s] }
    match w.excelErr with
    | some e => pr t1 (warnReport e)
    | none => { pr t1 (excelSaved (excel_output d s)) with excel := some (vcf_cols, rows) }

/-! ### `main()` (lines 53-177) -/

def mainBody (d s : String) (w : World) : Except Trace Trace :=
  let t := pr Trace.init banner
  let fastqs := pipelineInputs d w
  if fastqs.length < 2 then
    Except.error { pr t (errNoFastq d) with exitCode := 1 }
  else
    let r1_raw := fastqs.getD 0 ""
    let r2_raw := fastqs.getD 1 ""
    let t := { pr t (foundMsg r1_raw r2_raw) with foundInputs := some (r1_raw, r2_raw) }
    match runStages w t (stages d s r1_raw r2_raw) with
    | Except.error t2 => Except.error t2
    | Except.ok t2 =>
      let t3 := { t2 with paths := t2.paths ++ [anno_output d s] }
      let t4 := pr t3 skipMsg
      let t5 := pr t4 reportBanner
      let t6 := reportStep d s w t5
      Except.ok (pr t6 finalMsg)

/-- One whole run of the script: the trace either of a completed `main`
(process exit code 0) or of a `sys.exit(1)` (exit code 1). -/
def mainRun (d s : String) (w : World) : Trace :=
  match mainBody d s w with
  | Except.ok t => t
  | Except.error t => t

/-- All output paths the script can compute, in assignment order, as a
function of the base directory and sample identifier alone. -/
def outputPaths (d s : String) : List String :=
  [r1_paired d s, r1_unpaired d s, r2_paired d s, r2_unpaired d s,
   bam_output d s, sorted_bam d s, dedup_bam d s, metrics_file d s,
   vcf_output d s, anno_output d s, excel_output d s]

/-! ### Characterization lemmas -/

/-- The three lines `run_command` prints when the command succeeds. -/
def okPrints (st : Stage) : List String :=
  ["\n[INFO] Starting Step: " ++ st.name, "Command: " ++ st.cmd,
   "[SUCCESS] " ++ st.name ++ " completed.\n"]

/-- The three lines `run_command` prints when the command fails. -/
def failPrints (st : Stage) : List String :=
  ["\n[INFO] Starting Step: " ++ st.name, "Command: " ++ st.cmd,
   "[ERROR] " ++ st.name ++ " failed."]

/-- The lines the report step prints, by case on the world. -/
def reportPrints (d s : String) (w : World) : List String :=
  match read_csv w.vcfLines with
  | Except.error e => [warnReport e]
  | Except.ok _ =>
    match w.excelErr with
    | some e => [warnReport e]
    | none => [excelSaved (excel_output d s)]

/-- The paths the report step computes, by case on the world. -/
def reportPaths (d s : String) (w : World) : List String :=
  match read_csv w.vcfLines with
  | Except.error _ => []
  | Except.ok _ => [excel_output d s]

/-- The spreadsheet the report step writes, by case on the world. -/
def reportExcel (w : World) : Option (List String × List (List String)) :=
  match read_csv w.vcfLines with
  | Except.error _ => none
  | Except.ok rows =>
    match w.excelErr with
    | some _ => none
    | none => some (vcf_cols, rows)

/-- A line whose content is comment-prefixed (first character `#`). -/
def isCommentLine (l : String) : Bool :=
  match l.data with
  | [] => false
  | c :: _ => c = '#'

/-! ### Concrete worlds used to witness the claim theorems -/

/-- Two matching read files, every command succeeds, a clean two-line
variant-call file, and a working spreadsheet writer. -/
def wAllOk : World :=
  { files := ["b_R2.fastq.gz", "a_R1.fastq.gz", "notes.txt"],
    exit := fun _ => 0,
    vcfLines := some ["chr1\t100\t.\tA\tG\t50\tPASS\tDP=10\tGT\t0/1",
                      "chr2\t200\t.\tC\tT\t60\tPASS\tDP=12\tGT\t1/1"],
    excelErr := none }

/-- Like `wAllOk` but the sorting command exits 1. -/
def wFailSort : World :=
  { files := ["b_R2.fastq.gz", "a_R1.fastq.gz", "notes.txt"],
    exit := fun c => if c = cmd_sort DATA_DIR SAMPLE_ID then 1 else 0,
    vcfLines := some ["chr1\t100\t.\tA\tG\t50\tPASS\tDP=10\tGT\t0/1",
                      "chr2\t200\t.\tC\tT\t60\tPASS\tDP=12\tGT\t1/1"],
    excelErr := none }

/-- Every command succeeds but the variant-call file is missing at report
time. -/
def wNoVcf : World :=
  { files := ["b_R2.fastq.gz", "a_R1.fastq.gz"],
    exit := fun _ => 0,
    vcfLines := none,
    excelErr := none }

/-- Every command succeeds, the variant-call file has a comment header line
and two data lines. -/
def wVcfComments : World :=
  { files := ["b_R2.fastq.gz", "a_R1.fastq.gz"],
    exit := fun _ => 0,
    vcfLines := some ["#CHROM\tPOS\tID\tREF\tALT\tQUAL\tFILTER\tINFO\tFORMAT\tSAMPLE",
                      "chr1\t100\t.\tA\tG\t50\tPASS\tDP=10\tGT\t0/1",
                      "chr2\t200\t.\tC\tT\t60\tPASS\tDP=12\tGT\t1/1"],
    excelErr := none }

/-- Exactly one matching read file in the input directory. -/
def wOneFile : World :=
  { files := ["only_R1.fastq.gz", "notes.txt"],
    exit := fun _ => 0,
    vcfLines := none,
    excelErr := none }

/-- No matching read file in the input directory. -/
def wNoFiles : World :=
  { files := ["notes.txt"],
    exit := fun _ => 0,
    vcfLines := none,
    excelErr := none }

theorem run_command_zero (w : World) (t : Trace) (cmd nm : String)
    (h : w.exit cmd = 0) :
    run_command w t cmd nm = Except.ok
      { t with
          printed := t.printed ++
            ["\n[INFO] Starting Step: " ++ nm, "Command: " ++ cmd,
              "[SUCCESS] " ++ nm ++ " completed.\n"],
          executed := t.executed ++ [cmd] } := by
  simp [run_command, pr, h]

theorem run_command_nonzero (w : World) (t : Trace) (cmd nm : String)
    (h : w.exit cmd ≠ 0) :
    run_command w t cmd nm = Except.error
      { t with
          printed := t.printed ++
            ["\n[INFO] Starting Step: " ++ nm, "Command: " ++ cmd,
              "[ERROR] " ++ nm ++ " failed."],
          executed := t.executed ++ [cmd],
          exitCode := 1 } := by
  simp [run_command, pr, h]

theorem runStages_all_ok (w : World) :
    ∀ (ss : List Stage) (t : Trace), (∀ st ∈ ss, w.exit st.cmd = 0) →
    runStages w t ss = Except.ok
      { t with
          printed := t.printed ++ ss.flatMap okPrints,
          executed := t.executed ++ ss.map Stage.cmd,
          paths := t.paths ++ ss.flatMap Stage.newPaths } := by
  intro ss
  induction ss with
  | nil => intro t _; simp [runStages]
  | cons st rest ih =>
    intro t h
    have hst : w.exit st.cmd = 0 := h st (by simp)
    rw [runStages, run_command_zero w _ _ _ hst]
    dsimp only
    rw [ih _ (fun u hu => h u (by simp [hu]))]
    simp [okPrints]

theorem runStages_first_fail (w : World) :
    ∀ (ss₁ : List Stage) (st : Stage) (ss₂ : List Stage) (t : Trace),
    (∀ u ∈ ss₁, w.exit u.cmd = 0) → w.exit st.cmd ≠ 0 →
    runStages w t (ss₁ ++ st :: ss₂) = Except.error
      { t with
          printed := t.printed ++ ss₁.flatMap okPrints ++ failPrints st,
          executed := t.executed ++ ss₁.map Stage.cmd ++ [st.cmd],
          paths := t.paths ++ ss₁.flatMap Stage.newPaths ++ st.newPaths,
          exitCode := 1 } := by
  intro ss₁
  induction ss₁ with
  | nil =>
    intro st ss₂ t _ hf
    rw [List.nil_append, runStages, run_command_nonzero w _ _ _ hf]
    simp [failPrints]
  | cons u rest ih =>
    intro st ss₂ t h hf
    have hu : w.exit u.cmd = 0 := h u (by simp)
    rw [List.cons_append, runStages, run_command_zero w _ _ _ hu]
    dsimp only
    rw [ih st ss₂ _ (fun v hv => h v (by simp [hv])) hf]
    simp [okPrints]

/-- Either every stage command succeeds, or there is a first failing stage. -/
theorem stages_cases (w : World) (ss : List Stage) :
    (∀ st ∈ ss, w.exit st.cmd = 0) ∨
    ∃ ss₁ st ss₂, ss = ss₁ ++ st :: ss₂ ∧
      (∀ u ∈ ss₁, w.exit u.cmd = 0) ∧ w.exit st.cmd ≠ 0 := by
  induction ss with
  | nil => left; intro st h; cases h
  | cons st rest ih =>
    by_cases hst : w.exit st.cmd = 0
    · rcases ih with hall | ⟨ss₁, u, ss₂, heq, hpre, hfail⟩
      · left; intro v hv
        rcases List.mem_cons.mp hv with rfl | hv
        · exact hst
        · exact hall v hv
      · right
        exact ⟨st :: ss₁, u, ss₂, by simp [heq], by
          intro v hv
          rcases List.mem_cons.mp hv with rfl | hv
          · exact hst
          · exact hpre v hv, hfail⟩
    · right
      exact ⟨[], st, rest, by simp, fun v hv => absurd hv (by simp), hst⟩

theorem reportStep_spec (d s : String) (w : World) (t : Trace) (he : t.excel = none) :
    reportStep d s w t =
      { t with
          printed := t.printed ++ reportPrints d s w,
          paths := t.paths ++ reportPaths d s w,
          excel := reportExcel w } := by
  rcases hr : read_csv w.vcfLines with e | rows
  · simp [reportStep, reportPrints, reportPaths, reportExcel, hr, pr, he]
  · rcases hx : w.excelErr with _ | e <;>
      simp [reportStep, reportPrints, reportPaths, reportExcel, hr, hx, pr, he]

/-- Input discovery failure (fewer than two matching files): the run prints
the banner and the error message, executes nothing, and exits 1. -/
theorem mainRun_noInput (d s : String) (w : World)
    (h : (pipelineInputs d w).length < 2) :
    mainRun d s w =
      { printed := [banner, errNoFastq d], executed := [], paths := [],
        foundInputs := none, excel := none, exitCode := 1 } := by
  simp [mainRun, mainBody, h, pr, Trace.init]

/-- All stage commands succeed: the full trace of a completed run. -/
theorem mainRun_allOk (d s : String) (w : World)
    (h2 : ¬ (pipelineInputs d w).length < 2)
    (hok : ∀ st ∈ stepsOf d s w, w.exit st.cmd = 0) :
    mainRun d s w =
      { printed := [banner,
          foundMsg ((pipelineInputs d w).getD 0 "") ((pipelineInputs d w).getD 1 "")] ++
          (stepsOf d s w).flatMap okPrints ++ [skipMsg, reportBanner] ++
          reportPrints d s w ++ [finalMsg],
        executed := (stepsOf d s w).map Stage.cmd,
        paths := (stepsOf d s w).flatMap Stage.newPaths ++ [anno_output d s] ++
          reportPaths d s w,
        foundInputs := some ((pipelineInputs d w).getD 0 "", (pipelineInputs d w).getD 1 ""),
        excel := reportExcel w,
        exitCode := 0 } := by
  simp only [stepsOf] at hok
  simp only [mainRun, mainBody]
  rw [if_neg h2]
  rw [runStages_all_ok w _ _ hok]
  dsimp only
  rw [reportStep_spec d s w _ (by simp [pr, Trace.init])]
  simp [pr, Trace.init, stepsOf]

/-- A stage command fails after all earlier ones succeeded: the trace of a
run halted by `sys.exit(1)` inside `run_command`. -/
theorem mainRun_stepFail (d s : String) (w : World)
    (h2 : ¬ (pipelineInputs d w).length < 2)
    (ss₁ : List Stage) (st : Stage) (ss₂ : List Stage)
    (hdec : stepsOf d s w = ss₁ ++ st :: ss₂)
    (hpre : ∀ u ∈ ss₁, w.exit u.cmd = 0)
    (hf : w.exit st.cmd ≠ 0) :
    mainRun d s w =
      { printed := [banner,
          foundMsg ((pipelineInputs d w).getD 0 "") ((pipelineInputs d w).getD 1 "")] ++
          ss₁.flatMap okPrints ++ failPrints st,
        executed := ss₁.map Stage.cmd ++ [st.cmd],
        paths := ss₁.flatMap Stage.newPaths ++ st.newPaths,
        foundInputs := some ((pipelineInputs d w).getD 0 "", (pipelineInputs d w).getD 1 ""),
        excel := none,
        exitCode := 1 } := by
  simp only [stepsOf] at hdec
  simp only [mainRun, mainBody]
  rw [if_neg h2]
  rw [hdec, runStages_first_fail w ss₁ st ss₂ _ hpre hf]
  simp [pr, Trace.init]

/-! ### Properties of the sort used by input discovery -/

theorem listLe_total : ∀ (a b : List Char), listLe a b = true ∨ listLe b a = true := by
  intro a
  induction a with
  | nil => intro b; left; simp [listLe]
  | cons x xs ih =>
    intro b
    cases b with
    | nil => right; simp [listLe]
    | cons y ys =>
      by_cases h1 : x.toNat < y.toNat
      · left; simp [listLe, h1]
      · by_cases h2 : y.toNat < x.toNat
        · right; simp [listLe, h2]
        · rcases ih ys with h3 | h3
          · left; simp [listLe, h1, h2, h3]
          · right; simp [listLe, h1, h2, h3]

theorem listLe_trans : ∀ (a b c : List Char),
    listLe a b = true → listLe b c = true → listLe a c = true := by
  intro a
  induction a with
  | nil => intro b c _ _; simp [listLe]
  | cons x xs ih =>
    intro b c h1 h2
    cases b with
    | nil => simp [listLe] at h1
    | cons y ys =>
      cases c with
      | nil => simp [listLe] at h2
      | cons z zs =>
        simp only [listLe] at h1 h2 ⊢
        by_cases hxy : x.toNat < y.toNat
        · by_cases hyz : y.toNat < z.toNat
          · have hxz : x.toNat < z.toNat := by omega
            simp [hxz]
          · simp only [if_neg hyz] at h2
            by_cases hzy : z.toNat < y.toNat
            · simp [hzy] at h2
            · have hxz : x.toNat < z.toNat := by omega
              simp [hxz]
        · simp only [if_neg hxy] at h1
          by_cases hyx : y.toNat < x.toNat
          · simp [hyx] at h1
          · simp only [if_neg hyx] at h1
            by_cases hyz : y.toNat < z.toNat
            · have hxz : x.toNat < z.toNat := by omega
              simp [hxz]
            · simp only [if_neg hyz] at h2
              by_cases hzy : z.toNat < y.toNat
              · simp [hzy] at h2
              · simp only [if_neg hzy] at h2
                have hxz : ¬ x.toNat < z.toNat := by omega
                have hzx : ¬ z.toNat < x.toNat := by omega
                simp only [if_neg hxz, if_neg hzx]
                exact ih ys zs h1 h2

theorem strLe_total (a b : String) : strLe a b = true ∨ strLe b a = true :=
  listLe_total a.data b.data

theorem strLe_trans {a b c : String} (h1 : strLe a b = true) (h2 : strLe b c = true) :
    strLe a c = true :=
  listLe_trans a.data b.data c.data h1 h2

theorem insertLe_perm (le : String → String → Bool) (a : String) :
    ∀ (l : List String), (insertLe le a l).Perm (a :: l) := by
  intro l
  induction l with
  | nil => simp [insertLe]
  | cons b bs ih =>
    by_cases h : le a b
    · simp [insertLe, h]
    · simp only [insertLe, h, if_false, Bool.false_eq_true]
      exact (ih.cons b).trans (List.Perm.swap a b bs)

theorem sortLe_perm (le : String → String → Bool) :
    ∀ (l : List String), (sortLe le l).Perm l := by
  intro l
  induction l with
  | nil => simp [sortLe]
  | cons a as ih =>
    exact (insertLe_perm le a (sortLe le as)).trans (ih.cons a)

theorem sortLe_length (le : String → String → Bool) (l : List String) :
    (sortLe le l).length = l.length :=
  (sortLe_perm le l).length_eq

theorem mem_insertLe {le : String → String → Bool} {a x : String} {l : List String}
    (h : x ∈ insertLe le a l) : x = a ∨ x ∈ l := by
  have := (insertLe_perm le a l).mem_iff.mp h
  simpa using this

theorem insertLe_pairwise (a : String) {l : List String}
    (hs : l.Pairwise (fun x y => strLe x y = true)) :
    (insertLe strLe a l).Pairwise (fun x y => strLe x y = true) := by
  induction l with
  | nil => simp [insertLe]
  | cons b bs ih =>
    rcases List.pairwise_cons.mp hs with ⟨hb, hbs⟩
    by_cases h : strLe a b
    · simp only [insertLe, h, if_true]
      refine List.pairwise_cons.mpr ⟨?_, hs⟩
      intro x hx
      rcases List.mem_cons.mp hx with rfl | hx
      · exact h
      · exact strLe_trans h (hb x hx)
    · simp only [insertLe, h, if_false, Bool.false_eq_true]
      refine List.pairwise_cons.mpr ⟨?_, ih hbs⟩
      intro x hx
      rcases mem_insertLe hx with rfl | hx
      · rcases strLe_total x b with h2 | h2
        · exact absurd h2 (by simpa using h)
        · exact h2
      · exact hb x hx

theorem sortLe_pairwise : ∀ (l : List String),
    (sortLe strLe l).Pairwise (fun x y => strLe x y = true) := by
  intro l
  induction l with
  | nil => simp [sortLe]
  | cons a as ih => exact insertLe_pairwise a ih

/-! ### The seven stage commands (and the annotation command) are pairwise
distinct strings, for any base directory, sample identifier and read files. -/

theorem data_append_ne {a b r t : List Char} (i : Nat)
    (ha : i < a.length) (hb : i < b.length) (h : a[i]? ≠ b[i]?) :
    a ++ r ≠ b ++ t := by
  intro e
  apply h
  have h1 := congrArg (fun l => l[i]?) e
  simpa [List.getElem?_append_left ha, List.getElem?_append_left hb] using h1

theorem ne_trim_bwa (d s r1 r2 : String) : cmd_trim d s r1 r2 ≠ cmd_bwa d s := by
  intro e
  have e2 := congrArg String.data e
  simp only [cmd_trim, cmd_bwa, cmd_sort, cmd_index, cmd_dedup, cmd_dedup_index, cmd_hc, cmd_anno,
    TRIMMOMATIC_JAR, ADAPTERS, BWA, GATK, SAMTOOLS, ANNOVAR_CMD, REF_GENOME, REF_DIR,
    TARGET_BED, PIPELINE_DIR, r1_paired, r1_unpaired, r2_paired, r2_unpaired, bam_output,
    sorted_bam, dedup_bam, metrics_file, vcf_output, anno_output,
    String.data_append, List.append_assoc, List.append_right_inj] at e2
  exact data_append_ne 0 (by decide) (by decide) (by decide) e2

theorem ne_trim_sort (d s r1 r2 : String) : cmd_trim d s r1 r2 ≠ cmd_sort d s := by
  intro e
  have e2 := congrArg String.data e
  simp only [cmd_trim, cmd_bwa, cmd_sort, cmd_index, cmd_dedup, cmd_dedup_index, cmd_hc, cmd_anno,
    TRIMMOMATIC_JAR, ADAPTERS, BWA, GATK, SAMTOOLS, ANNOVAR_CMD, REF_GENOME, REF_DIR,
    TARGET_BED, PIPELINE_DIR, r1_paired, r1_unpaired, r2_paired, r2_unpaired, bam_output,
    sorted_bam, dedup_bam, metrics_file, vcf_output, anno_output,
    String.data_append, List.append_assoc, List.append_right_inj] at e2
  exact data_append_ne 0 (by decide) (by decide) (by decide) e2

theorem ne_trim_index (d s r1 r2 : String) : cmd_trim d s r1 r2 ≠ cmd_index d s := by
  intro e
  have e2 := congrArg String.data e
  simp only [cmd_trim, cmd_bwa, cmd_sort, cmd_index, cmd_dedup, cmd_dedup_index, cmd_hc, cmd_anno,
    TRIMMOMATIC_JAR, ADAPTERS, BWA, GATK, SAMTOOLS, ANNOVAR_CMD, REF_GENOME, REF_DIR,
    TARGET_BED, PIPELINE_DIR, r1_paired, r1_unpaired, r2_paired, r2_unpaired, bam_output,
    sorted_bam, dedup_bam, metrics_file, vcf_output, anno_output,
    String.data_append, List.append_assoc, List.append_right_inj] at e2
  exact data_append_ne 0 (by decide) (by decide) (by decide) e2

theorem ne_trim_dedup (d s r1 r2 : String) : cmd_trim d s r1 r2 ≠ cmd_dedup d s := by
  intro e
  have e2 := congrArg String.data e
  simp only [cmd_trim, cmd_bwa, cmd_sort, cmd_index, cmd_dedup, cmd_dedup_index, cmd_hc, cmd_anno,
    TRIMMOMATIC_JAR, ADAPTERS, BWA, GATK, SAMTOOLS, ANNOVAR_CMD, REF_GENOME, REF_DIR,
    TARGET_BED, PIPELINE_DIR, r1_paired, r1_unpaired, r2_paired, r2_unpaired, bam_output,
    sorted_bam, dedup_bam, metrics_file, vcf_output, anno_output,
    String.data_append, List.append_assoc, List.append_right_inj] at e2
  exact data_append_ne 0 (by decide) (by decide) (by decide) e2

theorem ne_trim_dedup_index (d s r1 r2 : String) : cmd_trim d s r1 r2 ≠ cmd_dedup_index d s := by
  intro e
  have e2 := congrArg String.data e
  simp only [cmd_trim, cmd_bwa, cmd_sort, cmd_index, cmd_dedup, cmd_dedup_index, cmd_hc, cmd_anno,
    TRIMMOMATIC_JAR, ADAPTERS, BWA, GATK, SAMTOOLS, ANNOVAR_CMD, REF_GENOME, REF_DIR,
    TARGET_BED, PIPELINE_DIR, r1_paired, r1_unpaired, r2_paired, r2_unpaired, bam_output,
    sorted_bam, dedup_bam, metrics_file, vcf_output, anno_output,
    String.data_append, List.append_assoc, List.append_right_inj] at e2
  exact data_append_ne 0 (by decide) (by decide) (by decide) e2

theorem ne_trim_hc (d s r1 r2 : String) : cmd_trim d s r1 r2 ≠ cmd_hc d s := by
  intro e
  have e2 := congrArg String.data e
  simp only [cmd_trim, cmd_bwa, cmd_sort, cmd_index, cmd_dedup, cmd_dedup_index, cmd_hc, cmd_anno,
    TRIMMOMATIC_JAR, ADAPTERS, BWA, GATK, SAMTOOLS, ANNOVAR_CMD, REF_GENOME, REF_DIR,
    TARGET_BED, PIPELINE_DIR, r1_paired, r1_unpaired, r2_paired, r2_unpaired, bam_output,
    sorted_bam, dedup_bam, metrics_file, vcf_output, anno_output,
    String.data_append, List.append_assoc, List.append_right_inj] at e2
  exact data_append_ne 0 (by decide) (by decide) (by decide) e2

theorem ne_bwa_sort (d s : String) : cmd_bwa d s ≠ cmd_sort d s := by
  intro e
  have e2 := congrArg String.data e
  simp only [cmd_trim, cmd_bwa, cmd_sort, cmd_index, cmd_dedup, cmd_dedup_index, cmd_hc, cmd_anno,
    TRIMMOMATIC_JAR, ADAPTERS, BWA, GATK, SAMTOOLS, ANNOVAR_CMD, REF_GENOME, REF_DIR,
    TARGET_BED, PIPELINE_DIR, r1_paired, r1_unpaired, r2_paired, r2_unpaired, bam_output,
    sorted_bam, dedup_bam, metrics_file, vcf_output, anno_output,
    String.data_append, List.append_assoc, List.append_right_inj] at e2
  exact data_append_ne 0 (by decide) (by decide) (by decide) e2

theorem ne_bwa_index (d s : String) : cmd_bwa d s ≠ cmd_index d s := by
  intro e
  have e2 := congrArg String.data e
  simp only [cmd_trim, cmd_bwa, cmd_sort, cmd_index, cmd_dedup, cmd_dedup_index, cmd_hc, cmd_anno,
    TRIMMOMATIC_JAR, ADAPTERS, BWA, GATK, SAMTOOLS, ANNOVAR_CMD, REF_GENOME, REF_DIR,
    TARGET_BED, PIPELINE_DIR, r1_paired, r1_unpaired, r2_paired, r2_unpaired, bam_output,
    sorted_bam, dedup_bam, metrics_file, vcf_output, anno_output,
    String.data_append, List.append_assoc, List.append_right_inj] at e2
  exact data_append_ne 0 (by decide) (by decide) (by decide) e2

theorem ne_bwa_dedup (d s : String) : cmd_bwa d s ≠ cmd_dedup d s := by
  intro e
  have e2 := congrArg String.data e
  simp only [cmd_trim, cmd_bwa, cmd_sort, cmd_index, cmd_dedup, cmd_dedup_index, cmd_hc, cmd_anno,
    TRIMMOMATIC_JAR, ADAPTERS, BWA, GATK, SAMTOOLS, ANNOVAR_CMD, REF_GENOME, REF_DIR,
    TARGET_BED, PIPELINE_DIR, r1_paired, r1_unpaired, r2_paired, r2_unpaired, bam_output,
    sorted_bam, dedup_bam, metrics_file, vcf_output, anno_output,
    String.data_append, List.append_assoc, List.append_right_inj] at e2
  exact data_append_ne 0 (by decide) (by decide) (by decide) e2

theorem ne_bwa_dedup_index (d s : String) : cmd_bwa d s ≠ cmd_dedup_index d s := by
  intro e
  have e2 := congrArg String.data e
  simp only [cmd_trim, cmd_bwa, cmd_sort, cmd_index, cmd_dedup, cmd_dedup_index, cmd_hc, cmd_anno,
    TRIMMOMATIC_JAR, ADAPTERS, BWA, GATK, SAMTOOLS, ANNOVAR_CMD, REF_GENOME, REF_DIR,
    TARGET_BED, PIPELINE_DIR, r1_paired, r1_unpaired, r2_paired, r2_unpaired, bam_output,
    sorted_bam, dedup_bam, metrics_file, vcf_output, anno_output,
    String.data_append, List.append_assoc, List.append_right_inj] at e2
  exact data_append_ne 0 (by decide) (by decide) (by decide) e2

theorem ne_bwa_hc (d s : String) : cmd_bwa d s ≠ cmd_hc d s := by
  intro e
  have e2 := congrArg String.data e
  simp only [cmd_trim, cmd_bwa, cmd_sort, cmd_index, cmd_dedup, cmd_dedup_index, cmd_hc, cmd_anno,
    TRIMMOMATIC_JAR, ADAPTERS, BWA, GATK, SAMTOOLS, ANNOVAR_CMD, REF_GENOME, REF_DIR,
    TARGET_BED, PIPELINE_DIR, r1_paired, r1_unpaired, r2_paired, r2_unpaired, bam_output,
    sorted_bam, dedup_bam, metrics_file, vcf_output, anno_output,
    String.data_append, List.append_assoc, List.append_right_inj] at e2
  exact data_append_ne 0 (by decide) (by decide) (by decide) e2

theorem ne_sort_index (d s : String) : cmd_sort d s ≠ cmd_index d s := by
  intro e
  have e2 := congrArg String.data e
  simp only [cmd_trim, cmd_bwa, cmd_sort, cmd_index, cmd_dedup, cmd_dedup_index, cmd_hc, cmd_anno,
    TRIMMOMATIC_JAR, ADAPTERS, BWA, GATK, SAMTOOLS, ANNOVAR_CMD, REF_GENOME, REF_DIR,
    TARGET_BED, PIPELINE_DIR, r1_paired, r1_unpaired, r2_paired, r2_unpaired, bam_output,
    sorted_bam, dedup_bam, metrics_file, vcf_output, anno_output,
    String.data_append, List.append_assoc, List.append_right_inj] at e2
  exact data_append_ne 1 (by decide) (by decide) (by decide) e2

theorem ne_sort_dedup (d s : String) : cmd_sort d s ≠ cmd_dedup d s := by
  intro e
  have e2 := congrArg String.data e
  simp only [cmd_trim, cmd_bwa, cmd_sort, cmd_index, cmd_dedup, cmd_dedup_index, cmd_hc, cmd_anno,
    TRIMMOMATIC_JAR, ADAPTERS, BWA, GATK, SAMTOOLS, ANNOVAR_CMD, REF_GENOME, REF_DIR,
    TARGET_BED, PIPELINE_DIR, r1_paired, r1_unpaired, r2_paired, r2_unpaired, bam_output,
    sorted_bam, dedup_bam, metrics_file, vcf_output, anno_output,
    String.data_append, List.append_assoc, List.append_right_inj] at e2
  exact data_append_ne 0 (by decide) (by decide) (by decide) e2

theorem ne_sort_dedup_index (d s : String) : cmd_sort d s ≠ cmd_dedup_index d s := by
  intro e
  have e2 := congrArg String.data e
  simp only [cmd_trim, cmd_bwa, cmd_sort, cmd_index, cmd_dedup, cmd_dedup_index, cmd_hc, cmd_anno,
    TRIMMOMATIC_JAR, ADAPTERS, BWA, GATK, SAMTOOLS, ANNOVAR_CMD, REF_GENOME, REF_DIR,
    TARGET_BED, PIPELINE_DIR, r1_paired, r1_unpaired, r2_paired, r2_unpaired, bam_output,
    sorted_bam, dedup_bam, metrics_file, vcf_output, anno_output,
    String.data_append, List.append_assoc, List.append_right_inj] at e2
  exact data_append_ne 1 (by decide) (by decide) (by decide) e2

theorem ne_sort_hc (d s : String) : cmd_sort d s ≠ cmd_hc d s := by
  intro e
  have e2 := congrArg String.data e
  simp only [cmd_trim, cmd_bwa, cmd_sort, cmd_index, cmd_dedup, cmd_dedup_index, cmd_hc, cmd_anno,
    TRIMMOMATIC_JAR, ADAPTERS, BWA, GATK, SAMTOOLS, ANNOVAR_CMD, REF_GENOME, REF_DIR,
    TARGET_BED, PIPELINE_DIR, r1_paired, r1_unpaired, r2_paired, r2_unpaired, bam_output,
    sorted_bam, dedup_bam, metrics_file, vcf_output, anno_output,
    String.data_append, List.append_assoc, List.append_right_inj] at e2
  exact data_append_ne 0 (by decide) (by decide) (by decide) e2

theorem ne_index_dedup (d s : String) : cmd_index d s ≠ cmd_dedup d s := by
  intro e
  have e2 := congrArg String.data e
  simp only [cmd_trim, cmd_bwa, cmd_sort, cmd_index, cmd_dedup, cmd_dedup_index, cmd_hc, cmd_anno,
    TRIMMOMATIC_JAR, ADAPTERS, BWA, GATK, SAMTOOLS, ANNOVAR_CMD, REF_GENOME, REF_DIR,
    TARGET_BED, PIPELINE_DIR, r1_paired, r1_unpaired, r2_paired, r2_unpaired, bam_output,
    sorted_bam, dedup_bam, metrics_file, vcf_output, anno_output,
    String.data_append, List.append_assoc, List.append_right_inj] at e2
  exact data_append_ne 0 (by decide) (by decide) (by decide) e2

theorem ne_index_dedup_index (d s : String) : cmd_index d s ≠ cmd_dedup_index d s := by
  intro e
  have e2 := congrArg String.data e
  simp only [cmd_trim, cmd_bwa, cmd_sort, cmd_index, cmd_dedup, cmd_dedup_index, cmd_hc, cmd_anno,
    TRIMMOMATIC_JAR, ADAPTERS, BWA, GATK, SAMTOOLS, ANNOVAR_CMD, REF_GENOME, REF_DIR,
    TARGET_BED, PIPELINE_DIR, r1_paired, r1_unpaired, r2_paired, r2_unpaired, bam_output,
    sorted_bam, dedup_bam, metrics_file, vcf_output, anno_output,
    String.data_append, List.append_assoc, List.append_right_inj] at e2
  exact absurd e2 (by decide)

theorem ne_index_hc (d s : String) : cmd_index d s ≠ cmd_hc d s := by
  intro e
  have e2 := congrArg String.data e
  simp only [cmd_trim, cmd_bwa, cmd_sort, cmd_index, cmd_dedup, cmd_dedup_index, cmd_hc, cmd_anno,
    TRIMMOMATIC_JAR, ADAPTERS, BWA, GATK, SAMTOOLS, ANNOVAR_CMD, REF_GENOME, REF_DIR,
    TARGET_BED, PIPELINE_DIR, r1_paired, r1_unpaired, r2_paired, r2_unpaired, bam_output,
    sorted_bam, dedup_bam, metrics_file, vcf_output, anno_output,
    String.data_append, List.append_assoc, List.append_right_inj] at e2
  exact data_append_ne 0 (by decide) (by decide) (by decide) e2

theorem ne_dedup_dedup_index (d s : String) : cmd_dedup d s ≠ cmd_dedup_index d s := by
  intro e
  have e2 := congrArg String.data e
  simp only [cmd_trim, cmd_bwa, cmd_sort, cmd_index, cmd_dedup, cmd_dedup_index, cmd_hc, cmd_anno,
    TRIMMOMATIC_JAR, ADAPTERS, BWA, GATK, SAMTOOLS, ANNOVAR_CMD, REF_GENOME, REF_DIR,
    TARGET_BED, PIPELINE_DIR, r1_paired, r1_unpaired, r2_paired, r2_unpaired, bam_output,
    sorted_bam, dedup_bam, metrics_file, vcf_output, anno_output,
    String.data_append, List.append_assoc, List.append_right_inj] at e2
  exact data_append_ne 0 (by decide) (by decide) (by decide) e2

theorem ne_dedup_hc (d s : String) : cmd_dedup d s ≠ cmd_hc d s := by
  intro e
  have e2 := congrArg String.data e
  simp only [cmd_trim, cmd_bwa, cmd_sort, cmd_index, cmd_dedup, cmd_dedup_index, cmd_hc, cmd_anno,
    TRIMMOMATIC_JAR, ADAPTERS, BWA, GATK, SAMTOOLS, ANNOVAR_CMD, REF_GENOME, REF_DIR,
    TARGET_BED, PIPELINE_DIR, r1_paired, r1_unpaired, r2_paired, r2_unpaired, bam_output,
    sorted_bam, dedup_bam, metrics_file, vcf_output, anno_output,
    String.data_append, List.append_assoc, List.append_right_inj] at e2
  exact data_append_ne 1 (by decide) (by decide) (by decide) e2

theorem ne_dedup_index_hc (d s : String) : cmd_dedup_index d s ≠ cmd_hc d s := by
  intro e
  have e2 := congrArg String.data e
  simp only [cmd_trim, cmd_bwa, cmd_sort, cmd_index, cmd_dedup, cmd_dedup_index, cmd_hc, cmd_anno,
    TRIMMOMATIC_JAR, ADAPTERS, BWA, GATK, SAMTOOLS, ANNOVAR_CMD, REF_GENOME, REF_DIR,
    TARGET_BED, PIPELINE_DIR, r1_paired, r1_unpaired, r2_paired, r2_unpaired, bam_output,
    sorted_bam, dedup_bam, metrics_file, vcf_output, anno_output,
    String.data_append, List.append_assoc, List.append_right_inj] at e2
  exact data_append_ne 0 (by decide) (by decide) (by decide) e2

theorem ne_trim_anno (d s r1 r2 : String) : cmd_trim d s r1 r2 ≠ cmd_anno d s := by
  intro e
  have e2 := congrArg String.data e
  simp only [cmd_trim, cmd_bwa, cmd_sort, cmd_index, cmd_dedup, cmd_dedup_index, cmd_hc, cmd_anno,
    TRIMMOMATIC_JAR, ADAPTERS, BWA, GATK, SAMTOOLS, ANNOVAR_CMD, REF_GENOME, REF_DIR,
    TARGET_BED, PIPELINE_DIR, r1_paired, r1_unpaired, r2_paired, r2_unpaired, bam_output,
    sorted_bam, dedup_bam, metrics_file, vcf_output, anno_output,
    String.data_append, List.append_assoc, List.append_right_inj] at e2
  exact data_append_ne 0 (by decide) (by decide) (by decide) e2

theorem ne_bwa_anno (d s : String) : cmd_bwa d s ≠ cmd_anno d s := by
  intro e
  have e2 := congrArg String.data e
  simp only [cmd_trim, cmd_bwa, cmd_sort, cmd_index, cmd_dedup, cmd_dedup_index, cmd_hc, cmd_anno,
    TRIMMOMATIC_JAR, ADAPTERS, BWA, GATK, SAMTOOLS, ANNOVAR_CMD, REF_GENOME, REF_DIR,
    TARGET_BED, PIPELINE_DIR, r1_paired, r1_unpaired, r2_paired, r2_unpaired, bam_output,
    sorted_bam, dedup_bam, metrics_file, vcf_output, anno_output,
    String.data_append, List.append_assoc, List.append_right_inj] at e2
  exact data_append_ne 0 (by decide) (by decide) (by decide) e2

theorem ne_sort_anno (d s : String) : cmd_sort d s ≠ cmd_anno d s := by
  intro e
  have e2 := congrArg String.data e
  simp only [cmd_trim, cmd_bwa, cmd_sort, cmd_index, cmd_dedup, cmd_dedup_index, cmd_hc, cmd_anno,
    TRIMMOMATIC_JAR, ADAPTERS, BWA, GATK, SAMTOOLS, ANNOVAR_CMD, REF_GENOME, REF_DIR,
    TARGET_BED, PIPELINE_DIR, r1_paired, r1_unpaired, r2_paired, r2_unpaired, bam_output,
    sorted_bam, dedup_bam, metrics_file, vcf_output, anno_output,
    String.data_append, List.append_assoc, List.append_right_inj] at e2
  exact data_append_ne 0 (by decide) (by decide) (by decide) e2

theorem ne_index_anno (d s : String) : cmd_index d s ≠ cmd_anno d s := by
  intro e
  have e2 := congrArg String.data e
  simp only [cmd_trim, cmd_bwa, cmd_sort, cmd_index, cmd_dedup, cmd_dedup_index, cmd_hc, cmd_anno,
    TRIMMOMATIC_JAR, ADAPTERS, BWA, GATK, SAMTOOLS, ANNOVAR_CMD, REF_GENOME, REF_DIR,
    TARGET_BED, PIPELINE_DIR, r1_paired, r1_unpaired, r2_paired, r2_unpaired, bam_output,
    sorted_bam, dedup_bam, metrics_file, vcf_output, anno_output,
    String.data_append, List.append_assoc, List.append_right_inj] at e2
  exact data_append_ne 0 (by decide) (by decide) (by decide) e2

theorem ne_dedup_anno (d s : String) : cmd_dedup d s ≠ cmd_anno d s := by
  intro e
  have e2 := congrArg String.data e
  simp only [cmd_trim, cmd_bwa, cmd_sort, cmd_index, cmd_dedup, cmd_dedup_index, cmd_hc, cmd_anno,
    TRIMMOMATIC_JAR, ADAPTERS, BWA, GATK, SAMTOOLS, ANNOVAR_CMD, REF_GENOME, REF_DIR,
    TARGET_BED, PIPELINE_DIR, r1_paired, r1_unpaired, r2_paired, r2_unpaired, bam_output,
    sorted_bam, dedup_bam, metrics_file, vcf_output, anno_output,
    String.data_append, List.append_assoc, List.append_right_inj] at e2
  exact data_append_ne 0 (by decide) (by decide) (by decide) e2

theorem ne_dedup_index_anno (d s : String) : cmd_dedup_index d s ≠ cmd_anno d s := by
  intro e
  have e2 := congrArg String.data e
  simp only [cmd_trim, cmd_bwa, cmd_sort, cmd_index, cmd_dedup, cmd_dedup_index, cmd_hc, cmd_anno,
    TRIMMOMATIC_JAR, ADAPTERS, BWA, GATK, SAMTOOLS, ANNOVAR_CMD, REF_GENOME, REF_DIR,
    TARGET_BED, PIPELINE_DIR, r1_paired, r1_unpaired, r2_paired, r2_unpaired, bam_output,
    sorted_bam, dedup_bam, metrics_file, vcf_output, anno_output,
    String.data_append, List.append_assoc, List.append_right_inj] at e2
  exact data_append_ne 0 (by decide) (by decide) (by decide) e2

theorem ne_hc_anno (d s : String) : cmd_hc d s ≠ cmd_anno d s := by
  intro e
  have e2 := congrArg String.data e
  simp only [cmd_trim, cmd_bwa, cmd_sort, cmd_index, cmd_dedup, cmd_dedup_index, cmd_hc, cmd_anno,
    TRIMMOMATIC_JAR, ADAPTERS, BWA, GATK, SAMTOOLS, ANNOVAR_CMD, REF_GENOME, REF_DIR,
    TARGET_BED, PIPELINE_DIR, r1_paired, r1_unpaired, r2_paired, r2_unpaired, bam_output,
    sorted_bam, dedup_bam, metrics_file, vcf_output, anno_output,
    String.data_append, List.append_assoc, List.append_right_inj] at e2
  exact data_append_ne 0 (by decide) (by decide) (by decide) e2

theorem stages_cmds_nodup (d s r1 r2 : String) :
    ((stages d s r1 r2).map Stage.cmd).Nodup := by
  simp [stages, List.nodup_cons,
    ne_trim_bwa d s r1 r2, ne_trim_sort d s r1 r2, ne_trim_index d s r1 r2,
    ne_trim_dedup d s r1 r2, ne_trim_dedup_index d s r1 r2, ne_trim_hc d s r1 r2,
    ne_bwa_sort d s, ne_bwa_index d s, ne_bwa_dedup d s, ne_bwa_dedup_index d s,
    ne_bwa_hc d s, ne_sort_index d s, ne_sort_dedup d s, ne_sort_dedup_index d s,
    ne_sort_hc d s, ne_index_dedup d s, ne_index_dedup_index d s, ne_index_hc d s,
    ne_dedup_dedup_index d s, ne_dedup_hc d s, ne_dedup_index_hc d s]

theorem cmd_anno_not_mem_stages (d s r1 r2 : String) :
    cmd_anno d s ∉ (stages d s r1 r2).map Stage.cmd := by
  simp [stages, (ne_trim_anno d s r1 r2).symm, (ne_bwa_anno d s).symm,
    (ne_sort_anno d s).symm, (ne_index_anno d s).symm, (ne_dedup_anno d s).symm,
    (ne_dedup_index_anno d s).symm, (ne_hc_anno d s).symm]

/-! ### Helpers discriminating printed lines from the dead warning message -/

theorem ne_of_getElem_data (i : Nat) {a b : String} (h : a.data[i]? ≠ b.data[i]?) :
    a ≠ b :=
  fun e => h (by rw [e])

theorem append_ne_append {a b r t : String} (i : Nat)
    (ha : i < a.data.length) (hb : i < b.data.length) (h : a.data[i]? ≠ b.data[i]?) :
    a ++ r ≠ b ++ t := by
  intro e
  have e2 := congrArg String.data e
  simp only [String.data_append] at e2
  exact data_append_ne i ha hb h e2

theorem lit_ne_append {a b t : String} (i : Nat)
    (hb : i < b.data.length) (h : a.data[i]? ≠ b.data[i]?) :
    a ≠ b ++ t := by
  intro e
  apply h
  have e2 := congrArg String.data e
  simp only [String.data_append] at e2
  rw [e2, List.getElem?_append_left hb]

/-! ### The claims -/

/-- Claim C2: the step runner `run_command`, for every command and step
name, returns normally (continuing the run, trace extended by the success
message and exactly one execution of the command) when the spawned process
exits 0, and on any non-zero exit prints a diagnostic naming the failed
step and immediately terminates the whole process with exit code 1, having
executed the command exactly once (no retry). -/
theorem claim_C2_run_command_fail_fast (w : World) (t : Trace) (cmd nm : String) :
    (w.exit cmd = 0 → run_command w t cmd nm = Except.ok
      { t with
          printed := t.printed ++
            ["\n[INFO] Starting Step: " ++ nm, "Command: " ++ cmd,
              "[SUCCESS] " ++ nm ++ " completed.\n"],
          executed := t.executed ++ [cmd] }) ∧
    (w.exit cmd ≠ 0 → run_command w t cmd nm = Except.error
      { t with
          printed := t.printed ++
            ["\n[INFO] Starting Step: " ++ nm, "Command: " ++ cmd,
              "[ERROR] " ++ nm ++ " failed."],
          executed := t.executed ++ [cmd],
          exitCode := 1 }) :=
  ⟨run_command_zero w t cmd nm, run_command_nonzero w t cmd nm⟩

/-- Witness for C2: the sorting command at its concrete step name, once in
a world where it exits 0 and once in a world where it exits 1. -/
theorem claim_C2_witness :
    (wAllOk.exit (cmd_sort DATA_DIR SAMPLE_ID) = 0 ∧
      run_command wAllOk Trace.init (cmd_sort DATA_DIR SAMPLE_ID) "2. Sorting (Samtools)" =
        Except.ok
          { Trace.init with
              printed := Trace.init.printed ++
                ["\n[INFO] Starting Step: " ++ "2. Sorting (Samtools)",
                  "Command: " ++ cmd_sort DATA_DIR SAMPLE_ID,
                  "[SUCCESS] " ++ "2. Sorting (Samtools)" ++ " completed.\n"],
              executed := Trace.init.executed ++ [cmd_sort DATA_DIR SAMPLE_ID] }) ∧
    (wFailSort.exit (cmd_sort DATA_DIR SAMPLE_ID) ≠ 0 ∧
      run_command wFailSort Trace.init (cmd_sort DATA_DIR SAMPLE_ID) "2. Sorting (Samtools)" =
        Except.error
          { Trace.init with
              printed := Trace.init.printed ++
                ["\n[INFO] Starting Step: " ++ "2. Sorting (Samtools)",
                  "Command: " ++ cmd_sort DATA_DIR SAMPLE_ID,
                  "[ERROR] " ++ "2. Sorting (Samtools)" ++ " failed."],
              executed := Trace.init.executed ++ [cmd_sort DATA_DIR SAMPLE_ID],
              exitCode := 1 }) :=
  ⟨⟨by decide,
    (claim_C2_run_command_fail_fast wAllOk Trace.init (cmd_sort DATA_DIR SAMPLE_ID)
      "2. Sorting (Samtools)").1 (by decide)⟩,
   ⟨by decide,
    (claim_C2_run_command_fail_fast wFailSort Trace.init (cmd_sort DATA_DIR SAMPLE_ID)
      "2. Sorting (Samtools)").2 (by decide)⟩⟩

/-- Claim C9: when the input directory holds exactly one matching FASTQ
file, the run exits 1 and prints exactly the banner and the same
`No FASTQ files found` diagnostic as when there is no matching file at
all: the output of a zero-file run is identical. -/
theorem claim_C9_one_file_same_message (d s : String) (w : World)
    (h1 : (globFastq d w.files).length = 1) :
    (mainRun d s w).exitCode = 1 ∧
    (mainRun d s w).printed = [banner, errNoFastq d] ∧
    (∀ w0 : World, (globFastq d w0.files).length = 0 →
      (mainRun d s w0).printed = (mainRun d s w).printed) := by
  have hlen : (pipelineInputs d w).length < 2 := by
    rw [pipelineInputs, sortLe_length]; omega
  rw [mainRun_noInput d s w hlen]
  refine ⟨rfl, rfl, ?_⟩
  intro w0 h0
  have hlen0 : (pipelineInputs d w0).length < 2 := by
    rw [pipelineInputs, sortLe_length]; omega
  rw [mainRun_noInput d s w0 hlen0]

/-- Witness for C9: a directory with exactly one matching file, compared
with a directory with none. -/
theorem claim_C9_witness :
    (globFastq DATA_DIR wOneFile.files).length = 1 ∧
    ((mainRun DATA_DIR SAMPLE_ID wOneFile).exitCode = 1 ∧
      (mainRun DATA_DIR SAMPLE_ID wOneFile).printed = [banner, errNoFastq DATA_DIR] ∧
      (∀ w0 : World, (globFastq DATA_DIR w0.files).length = 0 →
        (mainRun DATA_DIR SAMPLE_ID w0).printed =
          (mainRun DATA_DIR SAMPLE_ID wOneFile).printed)) :=
  ⟨by decide, claim_C9_one_file_same_message DATA_DIR SAMPLE_ID wOneFile (by decide)⟩

/-- Claim C1: for every step in the pipeline, if that step's external
command exits non-zero (after all earlier steps succeeded), the run's
executed commands are exactly the commands up to and including the failing
one — no subsequent step's command is ever executed — and the overall
process exit code is 1. -/
theorem claim_C1_failure_halts (d s : String) (w : World)
    (h2 : ¬ (pipelineInputs d w).length < 2)
    (ss₁ : List Stage) (st : Stage) (ss₂ : List Stage)
    (hdec : stepsOf d s w = ss₁ ++ st :: ss₂)
    (hpre : ∀ u ∈ ss₁, w.exit u.cmd = 0)
    (hf : w.exit st.cmd ≠ 0) :
    (mainRun d s w).exitCode = 1 ∧
    (mainRun d s w).executed = ss₁.map Stage.cmd ++ [st.cmd] ∧
    (∀ u ∈ ss₂, u.cmd ∉ (mainRun d s w).executed) := by
  have hm := mainRun_stepFail d s w h2 ss₁ st ss₂ hdec hpre hf
  have hexec : (mainRun d s w).executed = ss₁.map Stage.cmd ++ [st.cmd] := by rw [hm]
  refine ⟨by rw [hm], hexec, ?_⟩
  intro u hu
  rw [hexec]
  have hnd : ((ss₁ ++ st :: ss₂).map Stage.cmd).Nodup := by
    rw [← hdec, stepsOf]
    exact stages_cmds_nodup d s _ _
  rw [List.map_append, List.map_cons] at hnd
  rcases List.nodup_append.mp hnd with ⟨_, hn2, hdisj⟩
  have humem : u.cmd ∈ ss₂.map Stage.cmd := List.mem_map_of_mem Stage.cmd hu
  intro hmem
  rcases List.mem_append.mp hmem with hin | hin
  · exact hdisj hin (List.mem_cons_of_mem _ humem)
  · have heq : u.cmd = st.cmd := by simpa using hin
    rcases List.nodup_cons.mp hn2 with ⟨hst, _⟩
    exact hst (heq ▸ humem)

set_option maxRecDepth 8192 in
/-- Witness for C1: a world where the sorting command (step index 2) exits
1 while the two earlier commands succeed. -/
theorem claim_C1_witness :
    (¬ (pipelineInputs DATA_DIR wFailSort).length < 2) ∧
    stepsOf DATA_DIR SAMPLE_ID wFailSort =
      (stepsOf DATA_DIR SAMPLE_ID wFailSort).take 2 ++
        Stage.mk [sorted_bam DATA_DIR SAMPLE_ID] (cmd_sort DATA_DIR SAMPLE_ID)
          "2. Sorting (Samtools)" ::
        (stepsOf DATA_DIR SAMPLE_ID wFailSort).drop 3 ∧
    (∀ u ∈ (stepsOf DATA_DIR SAMPLE_ID wFailSort).take 2, wFailSort.exit u.cmd = 0) ∧
    wFailSort.exit (cmd_sort DATA_DIR SAMPLE_ID) ≠ 0 ∧
    ((mainRun DATA_DIR SAMPLE_ID wFailSort).exitCode = 1 ∧
      (mainRun DATA_DIR SAMPLE_ID wFailSort).executed =
        ((stepsOf DATA_DIR SAMPLE_ID wFailSort).take 2).map Stage.cmd ++
          [(Stage.mk [sorted_bam DATA_DIR SAMPLE_ID] (cmd_sort DATA_DIR SAMPLE_ID)
            "2. Sorting (Samtools)").cmd] ∧
      (∀ u ∈ (stepsOf DATA_DIR SAMPLE_ID wFailSort).drop 3,
        u.cmd ∉ (mainRun DATA_DIR SAMPLE_ID wFailSort).executed)) :=
  ⟨by decide, by decide, by decide, by decide,
    claim_C1_failure_halts DATA_DIR SAMPLE_ID wFailSort (by decide)
      ((stepsOf DATA_DIR SAMPLE_ID wFailSort).take 2)
      (Stage.mk [sorted_bam DATA_DIR SAMPLE_ID] (cmd_sort DATA_DIR SAMPLE_ID)
        "2. Sorting (Samtools)")
      ((stepsOf DATA_DIR SAMPLE_ID wFailSort).drop 3)
      (by decide) (by decide) (by decide)⟩

/-- Claim C3: any failure in the final report step (missing variant-call
file, unreadable rows, or spreadsheet-write error) is caught and
downgraded to a printed warning; every run that reaches the report step
finishes with process exit code 0 regardless. -/
theorem claim_C3_report_failure_keeps_exit0 (d s : String) (w : World)
    (h2 : ¬ (pipelineInputs d w).length < 2)
    (hok : ∀ st ∈ stepsOf d s w, w.exit st.cmd = 0) :
    (mainRun d s w).exitCode = 0 ∧
    (∀ e, read_csv w.vcfLines = Except.error e →
      warnReport e ∈ (mainRun d s w).printed) ∧
    (∀ rows e, read_csv w.vcfLines = Except.ok rows → w.excelErr = some e →
      warnReport e ∈ (mainRun d s w).printed) := by
  have hm := mainRun_allOk d s w h2 hok
  refine ⟨by rw [hm], ?_, ?_⟩
  · intro e he
    rw [hm]
    simp [reportPrints, he]
  · intro rows e hr he
    rw [hm]
    simp [reportPrints, hr, he]

/-- Witness for C3: all commands succeed but the variant-call file is
missing at report time; the run still exits 0 and prints the warning. -/
theorem claim_C3_witness :
    (¬ (pipelineInputs DATA_DIR wNoVcf).length < 2) ∧
    (∀ st ∈ stepsOf DATA_DIR SAMPLE_ID wNoVcf, wNoVcf.exit st.cmd = 0) ∧
    ((mainRun DATA_DIR SAMPLE_ID wNoVcf).exitCode = 0 ∧
      (∀ e, read_csv wNoVcf.vcfLines = Except.error e →
        warnReport e ∈ (mainRun DATA_DIR SAMPLE_ID wNoVcf).printed) ∧
      (∀ rows e, read_csv wNoVcf.vcfLines = Except.ok rows → wNoVcf.excelErr = some e →
        warnReport e ∈ (mainRun DATA_DIR SAMPLE_ID wNoVcf).printed)) :=
  ⟨by decide, by decide,
    claim_C3_report_failure_keeps_exit0 DATA_DIR SAMPLE_ID wNoVcf (by decide) (by decide)⟩

/-- Claim C4: input discovery selects, among the files of the input
directory matching the FASTQ pattern, exactly the lexically first two (the
selected list is a sorted permutation of the matching files and the run
records its first two entries as read-1/read-2), and with fewer than two
matching files the run exits 1 before any pipeline command executes. -/
theorem claim_C4_input_discovery (d s : String) (w : World) :
    ((globFastq d w.files).length < 2 →
      (mainRun d s w).exitCode = 1 ∧ (mainRun d s w).executed = []) ∧
    (2 ≤ (globFastq d w.files).length →
      (mainRun d s w).foundInputs =
        some ((sortLe strLe (globFastq d w.files)).getD 0 "",
          (sortLe strLe (globFastq d w.files)).getD 1 "") ∧
      List.Perm (sortLe strLe (globFastq d w.files)) (globFastq d w.files) ∧
      List.Pairwise (fun a b => strLe a b = true) (sortLe strLe (globFastq d w.files))) := by
  constructor
  · intro h
    have hlen : (pipelineInputs d w).length < 2 := by
      rw [pipelineInputs, sortLe_length]; exact h
    rw [mainRun_noInput d s w hlen]
    exact ⟨rfl, rfl⟩
  · intro h
    have hlen : ¬ (pipelineInputs d w).length < 2 := by
      rw [pipelineInputs, sortLe_length]; omega
    rcases stages_cases w (stepsOf d s w) with hall | ⟨ss₁, st, ss₂, hdec, hpre, hf⟩
    · rw [mainRun_allOk d s w hlen hall]
      exact ⟨rfl, sortLe_perm _ _, sortLe_pairwise _⟩
    · rw [mainRun_stepFail d s w hlen ss₁ st ss₂ hdec hpre hf]
      exact ⟨rfl, sortLe_perm _ _, sortLe_pairwise _⟩

/-- Witness for C4: the short-input branch at a one-file directory and the
selection branch at a two-file directory. -/
theorem claim_C4_witness :
    ((globFastq DATA_DIR wOneFile.files).length < 2 ∧
      (mainRun DATA_DIR SAMPLE_ID wOneFile).exitCode = 1 ∧
      (mainRun DATA_DIR SAMPLE_ID wOneFile).executed = []) ∧
    (2 ≤ (globFastq DATA_DIR wAllOk.files).length ∧
      (mainRun DATA_DIR SAMPLE_ID wAllOk).foundInputs =
        some ((sortLe strLe (globFastq DATA_DIR wAllOk.files)).getD 0 "",
          (sortLe strLe (globFastq DATA_DIR wAllOk.files)).getD 1 "") ∧
      List.Perm (sortLe strLe (globFastq DATA_DIR wAllOk.files))
        (globFastq DATA_DIR wAllOk.files) ∧
      List.Pairwise (fun a b => strLe a b = true)
        (sortLe strLe (globFastq DATA_DIR wAllOk.files))) :=
  ⟨⟨by decide, (claim_C4_input_discovery DATA_DIR SAMPLE_ID wOneFile).1 (by decide)⟩,
   ⟨by decide, (claim_C4_input_discovery DATA_DIR SAMPLE_ID wAllOk).2 (by decide)⟩⟩

/-- Claim C8: the ANNOVAR annotation command is never among the executed
commands of any run (the call is commented out), and every run whose stage
commands all succeed proceeds past step 5 to the report step. -/
theorem claim_C8_annovar_never_executes (d s : String) (w : World) :
    cmd_anno d s ∉ (mainRun d s w).executed ∧
    ((¬ (pipelineInputs d w).length < 2) →
      (∀ st ∈ stepsOf d s w, w.exit st.cmd = 0) →
      reportBanner ∈ (mainRun d s w).printed) := by
  constructor
  · by_cases hlen : (pipelineInputs d w).length < 2
    · rw [mainRun_noInput d s w hlen]
      simp
    · rcases stages_cases w (stepsOf d s w) with hall | ⟨ss₁, st, ss₂, hdec, hpre, hf⟩
      · have hm := mainRun_allOk d s w hlen hall
        have hex : (mainRun d s w).executed = (stepsOf d s w).map Stage.cmd := by rw [hm]
        rw [hex, stepsOf]
        exact cmd_anno_not_mem_stages d s _ _
      · have hm := mainRun_stepFail d s w hlen ss₁ st ss₂ hdec hpre hf
        have hex : (mainRun d s w).executed = ss₁.map Stage.cmd ++ [st.cmd] := by rw [hm]
        rw [hex]
        intro hmem
        have hall : cmd_anno d s ∈ (stepsOf d s w).map Stage.cmd := by
          rw [hdec, List.map_append, List.map_cons]
          rcases List.mem_append.mp hmem with h | h
          · exact List.mem_append.mpr (Or.inl h)
          · have heq : cmd_anno d s = st.cmd := by simpa using h
            exact List.mem_append.mpr (Or.inr (by simp [heq]))
        rw [stepsOf] at hall
        exact cmd_anno_not_mem_stages d s _ _ hall
  · intro hlen hok
    have hm := mainRun_allOk d s w hlen hok
    rw [hm]
    simp

/-- Witness for C8: the completed run of `wAllOk` reaches the report step
and never executes the annotation command. -/
theorem claim_C8_witness :
    (¬ (pipelineInputs DATA_DIR wAllOk).length < 2) ∧
    (∀ st ∈ stepsOf DATA_DIR SAMPLE_ID wAllOk, wAllOk.exit st.cmd = 0) ∧
    (cmd_anno DATA_DIR SAMPLE_ID ∉ (mainRun DATA_DIR SAMPLE_ID wAllOk).executed ∧
      ((¬ (pipelineInputs DATA_DIR wAllOk).length < 2) →
        (∀ st ∈ stepsOf DATA_DIR SAMPLE_ID wAllOk, wAllOk.exit st.cmd = 0) →
        reportBanner ∈ (mainRun DATA_DIR SAMPLE_ID wAllOk).printed)) :=
  ⟨by decide, by decide, claim_C8_annovar_never_executes DATA_DIR SAMPLE_ID wAllOk⟩

/-- For any split of the stage list at a failing stage, the paths computed
so far are an initial segment of the fixed path list. -/
theorem stages_decomp_paths (d s r1 r2 : String)
    (ss₁ : List Stage) (st : Stage) (ss₂ : List Stage)
    (hdec : stages d s r1 r2 = ss₁ ++ st :: ss₂) :
    ss₁.flatMap Stage.newPaths ++ st.newPaths =
      (outputPaths d s).take (ss₁.flatMap Stage.newPaths ++ st.newPaths).length := by
  rw [stages] at hdec
  rcases ss₁ with _ | ⟨a1, ss₁⟩
  · simp only [List.nil_append, List.cons.injEq] at hdec
    obtain ⟨rfl, -⟩ := hdec
    rfl
  rcases ss₁ with _ | ⟨a2, ss₁⟩
  · simp only [List.cons_append, List.nil_append, List.cons.injEq] at hdec
    obtain ⟨rfl, rfl, -⟩ := hdec
    rfl
  rcases ss₁ with _ | ⟨a3, ss₁⟩
  · simp only [List.cons_append, List.nil_append, List.cons.injEq] at hdec
    obtain ⟨rfl, rfl, rfl, -⟩ := hdec
    rfl
  rcases ss₁ with _ | ⟨a4, ss₁⟩
  · simp only [List.cons_append, List.nil_append, List.cons.injEq] at hdec
    obtain ⟨rfl, rfl, rfl, rfl, -⟩ := hdec
    rfl
  rcases ss₁ with _ | ⟨a5, ss₁⟩
  · simp only [List.cons_append, List.nil_append, List.cons.injEq] at hdec
    obtain ⟨rfl, rfl, rfl, rfl, rfl, -⟩ := hdec
    rfl
  rcases ss₁ with _ | ⟨a6, ss₁⟩
  · simp only [List.cons_append, List.nil_append, List.cons.injEq] at hdec
    obtain ⟨rfl, rfl, rfl, rfl, rfl, rfl, -⟩ := hdec
    rfl
  rcases ss₁ with _ | ⟨a7, ss₁⟩
  · simp only [List.cons_append, List.nil_append, List.cons.injEq] at hdec
    obtain ⟨rfl, rfl, rfl, rfl, rfl, rfl, rfl, -⟩ := hdec
    rfl
  · exfalso
    simp only [List.cons_append, List.cons.injEq] at hdec
    obtain ⟨-, -, -, -, -, -, -, hnil⟩ := hdec
    exact absurd hnil.symm (by simp)

/-- Claim C5: every output path the run computes comes, in order, from the
fixed list `outputPaths d s`, a pure function of the base directory and
the sample identifier alone — for any world (any tool behaviour, any file
contents) the computed paths are an initial segment of that list, and a
run that completes with a readable variant-call file computes exactly that
list.  Hence two invocations with the same identifier and base directory
compute identical paths. -/
theorem claim_C5_paths_deterministic (d s : String) (w : World) :
    (mainRun d s w).paths = (outputPaths d s).take (mainRun d s w).paths.length ∧
    (¬ (pipelineInputs d w).length < 2 →
      (∀ st ∈ stepsOf d s w, w.exit st.cmd = 0) →
      (∀ rows, read_csv w.vcfLines = Except.ok rows →
        (mainRun d s w).paths = outputPaths d s)) := by
  constructor
  · by_cases hlen : (pipelineInputs d w).length < 2
    · rw [mainRun_noInput d s w hlen]
      rfl
    · rcases stages_cases w (stepsOf d s w) with hall | ⟨ss₁, st, ss₂, hdec, hpre, hf⟩
      · rw [mainRun_allOk d s w hlen hall]
        rcases hr : read_csv w.vcfLines with e | rows <;>
          simp only [reportPaths, hr] <;> rfl
      · rw [mainRun_stepFail d s w hlen ss₁ st ss₂ hdec hpre hf]
        rw [stepsOf] at hdec
        exact stages_decomp_paths d s _ _ ss₁ st ss₂ hdec
  · intro hlen hok rows hr
    rw [mainRun_allOk d s w hlen hok]
    simp only [reportPaths, hr]
    rfl

/-- Witness for C5: the completed run of `wAllOk` computes exactly the
eleven output paths. -/
theorem claim_C5_witness :
    (¬ (pipelineInputs DATA_DIR wAllOk).length < 2) ∧
    (∀ st ∈ stepsOf DATA_DIR SAMPLE_ID wAllOk, wAllOk.exit st.cmd = 0) ∧
    read_csv wAllOk.vcfLines =
      Except.ok (parseVcf ["chr1\t100\t.\tA\tG\t50\tPASS\tDP=10\tGT\t0/1",
        "chr2\t200\t.\tC\tT\t60\tPASS\tDP=12\tGT\t1/1"]) ∧
    (mainRun DATA_DIR SAMPLE_ID wAllOk).paths = outputPaths DATA_DIR SAMPLE_ID :=
  ⟨by decide, by decide, by rfl,
    (claim_C5_paths_deterministic DATA_DIR SAMPLE_ID wAllOk).2 (by decide) (by decide)
      (parseVcf ["chr1\t100\t.\tA\tG\t50\tPASS\tDP=10\tGT\t0/1",
        "chr2\t200\t.\tC\tT\t60\tPASS\tDP=12\tGT\t1/1"]) (by rfl)⟩

/-- Lines that contain no comment character and are non-empty all survive
the comment stripping and blank-line filtering of `read_csv`. -/
theorem cleanLines_clean : ∀ (ls : List String),
    (∀ l ∈ ls, stripComment l = l ∧ l ≠ "") → cleanLines ls = ls := by
  intro ls
  induction ls with
  | nil => intro _; rfl
  | cons l rest ih =>
    intro h
    rcases h l (by simp) with ⟨h1, h2⟩
    have ih2 := ih (fun x hx => h x (by simp [hx]))
    simp only [cleanLines, List.map_cons, List.filter_cons] at ih2 ⊢
    rw [h1]
    rw [if_pos (by simpa using h2)]
    exact congrArg (List.cons l) ih2

/-- Claim C6: with a two-line tab-separated variant-call file (no comment
character, non-empty lines) and a working spreadsheet writer, the report
step writes a spreadsheet whose header list is exactly the declared
ten-column header list, in order, and whose row count equals the input
line count (two). -/
theorem claim_C6_report_shape (d s : String) (w : World) (ls : List String)
    (h2 : ¬ (pipelineInputs d w).length < 2)
    (hok : ∀ st ∈ stepsOf d s w, w.exit st.cmd = 0)
    (hvcf : w.vcfLines = some ls)
    (hlen : ls.length = 2)
    (hclean : ∀ l ∈ ls, stripComment l = l ∧ l ≠ "")
    (hexcel : w.excelErr = none) :
    ∃ rows, (mainRun d s w).excel = some (vcf_cols, rows) ∧ rows.length = 2 := by
  have hcl := cleanLines_clean ls hclean
  have hrows : parseVcf ls = ls.map splitTab := by rw [parseVcf, hcl]
  have hne : parseVcf ls ≠ [] := by
    rw [hrows]
    intro hemp
    have hh := congrArg List.length hemp
    simp [hlen] at hh
  have hr : read_csv w.vcfLines = Except.ok (parseVcf ls) := by
    rw [hvcf]
    simp [read_csv, hne]
  have hm := mainRun_allOk d s w h2 hok
  refine ⟨parseVcf ls, ?_, ?_⟩
  · rw [hm]
    simp [reportExcel, hr, hexcel]
  · rw [hrows]
    simp [hlen]

/-- Witness for C6: the two-line file of `wAllOk`. -/
theorem claim_C6_witness :
    (¬ (pipelineInputs DATA_DIR wAllOk).length < 2) ∧
    (∀ st ∈ stepsOf DATA_DIR SAMPLE_ID wAllOk, wAllOk.exit st.cmd = 0) ∧
    wAllOk.vcfLines = some ["chr1\t100\t.\tA\tG\t50\tPASS\tDP=10\tGT\t0/1",
      "chr2\t200\t.\tC\tT\t60\tPASS\tDP=12\tGT\t1/1"] ∧
    (∃ rows, (mainRun DATA_DIR SAMPLE_ID wAllOk).excel = some (vcf_cols, rows) ∧
      rows.length = 2) :=
  ⟨by decide, by decide, by decide,
    claim_C6_report_shape DATA_DIR SAMPLE_ID wAllOk
      ["chr1\t100\t.\tA\tG\t50\tPASS\tDP=10\tGT\t0/1",
        "chr2\t200\t.\tC\tT\t60\tPASS\tDP=12\tGT\t1/1"]
      (by decide) (by decide) (by decide) (by decide) (by decide) (by decide)⟩

/-- A comment-prefixed line is truncated to the empty string. -/
theorem stripComment_of_comment {l : String} (h : isCommentLine l = true) :
    stripComment l = "" := by
  rcases l with ⟨data⟩
  cases data with
  | nil => simp [isCommentLine] at h
  | cons c cs =>
    have hc : c = '#' := by simpa [isCommentLine] using h
    subst hc
    simp [stripComment]

/-- Comment stripping and filtering give the same surviving lines whether
or not the comment-prefixed lines are removed beforehand. -/
theorem cleanLines_drop_comments : ∀ (ls : List String),
    cleanLines ls = cleanLines (ls.filter (fun l => !(isCommentLine l))) := by
  intro ls
  induction ls with
  | nil => rfl
  | cons l rest ih =>
    by_cases h : isCommentLine l
    · have hs : stripComment l = "" := stripComment_of_comment h
      simp only [List.filter_cons, h, Bool.not_true, if_false, Bool.false_eq_true]
      simp only [cleanLines, List.map_cons, List.filter_cons, hs] at ih ⊢
      rw [if_neg (by simp)]
      exact ih
    · simp only [List.filter_cons, Bool.not_eq_true', eq_self_iff_true]
      rw [if_pos (by simp [h])]
      simp only [cleanLines, List.map_cons, List.filter_cons] at ih ⊢
      by_cases hs : stripComment l = ""
      · rw [hs]
        rw [if_neg (by simp), if_neg (by simp)]
        exact ih
      · rw [if_pos (by simpa using hs), if_pos (by simpa using hs)]
        exact congrArg (List.cons (stripComment l)) ih

/-- Claim C7: the report builder skips every comment-prefixed line of the
variant-call file — the parsed table is the same as the table of the file
with those lines removed, and so is the spreadsheet a completed run
writes. -/
theorem claim_C7_comment_lines_skipped :
    (∀ ls : List String,
      parseVcf ls = parseVcf (ls.filter (fun l => !(isCommentLine l)))) ∧
    (∀ (d s : String) (w : World) (ls : List String),
      ¬ (pipelineInputs d w).length < 2 →
      (∀ st ∈ stepsOf d s w, w.exit st.cmd = 0) →
      w.vcfLines = some ls →
      parseVcf ls ≠ [] →
      w.excelErr = none →
      (mainRun d s w).excel =
        some (vcf_cols, parseVcf (ls.filter (fun l => !(isCommentLine l))))) := by
  have key : ∀ ls : List String,
      parseVcf ls = parseVcf (ls.filter (fun l => !(isCommentLine l))) := by
    intro ls
    rw [parseVcf, parseVcf, cleanLines_drop_comments]
  refine ⟨key, ?_⟩
  intro d s w ls hlen hok hvcf hne hexcel
  have hr : read_csv w.vcfLines = Except.ok (parseVcf ls) := by
    rw [hvcf]
    simp [read_csv, hne]
  have hm := mainRun_allOk d s w hlen hok
  rw [hm]
  simp only [reportExcel, hr, hexcel]
  rw [← key ls]

/-- Witness for C7: a variant-call file whose first line is a `#` header
and whose two remaining lines are data. -/
theorem claim_C7_witness :
    (¬ (pipelineInputs DATA_DIR wVcfComments).length < 2) ∧
    (∀ st ∈ stepsOf DATA_DIR SAMPLE_ID wVcfComments, wVcfComments.exit st.cmd = 0) ∧
    wVcfComments.vcfLines =
      some ["#CHROM\tPOS\tID\tREF\tALT\tQUAL\tFILTER\tINFO\tFORMAT\tSAMPLE",
        "chr1\t100\t.\tA\tG\t50\tPASS\tDP=10\tGT\t0/1",
        "chr2\t200\t.\tC\tT\t60\tPASS\tDP=12\tGT\t1/1"] ∧
    (mainRun DATA_DIR SAMPLE_ID wVcfComments).excel =
      some (vcf_cols,
        parseVcf (["#CHROM\tPOS\tID\tREF\tALT\tQUAL\tFILTER\tINFO\tFORMAT\tSAMPLE",
          "chr1\t100\t.\tA\tG\t50\tPASS\tDP=10\tGT\t0/1",
          "chr2\t200\t.\tC\tT\t60\tPASS\tDP=12\tGT\t1/1"].filter
            (fun l => !(isCommentLine l)))) :=
  ⟨by decide, by decide, by decide,
    claim_C7_comment_lines_skipped.2 DATA_DIR SAMPLE_ID wVcfComments
      ["#CHROM\tPOS\tID\tREF\tALT\tQUAL\tFILTER\tINFO\tFORMAT\tSAMPLE",
        "chr1\t100\t.\tA\tG\t50\tPASS\tDP=10\tGT\t0/1",
        "chr2\t200\t.\tC\tT\t60\tPASS\tDP=12\tGT\t1/1"]
      (by decide) (by decide) (by decide) (by decide) (by decide)⟩

/-! ### No printed line is the dead annotation warning -/

theorem annoWarn_ne_banner (e : String) : banner ≠ annoWarn e := by
  rw [annoWarn, banner]
  exact lit_ne_append 0 (by decide) (by decide)

theorem annoWarn_ne_skip (e : String) : skipMsg ≠ annoWarn e := by
  rw [annoWarn, skipMsg]
  exact lit_ne_append 1 (by decide) (by decide)

theorem annoWarn_ne_reportBanner (e : String) : reportBanner ≠ annoWarn e := by
  rw [annoWarn, reportBanner]
  exact lit_ne_append 0 (by decide) (by decide)

theorem annoWarn_ne_final (e : String) : finalMsg ≠ annoWarn e := by
  rw [annoWarn, finalMsg]
  exact lit_ne_append 1 (by decide) (by decide)

theorem annoWarn_ne_err (d e : String) : errNoFastq d ≠ annoWarn e := by
  intro h
  have e2 := congrArg String.data h
  simp only [errNoFastq, annoWarn, String.data_append, List.append_assoc] at e2
  exact data_append_ne 1 (by decide) (by decide) (by decide) e2

theorem annoWarn_ne_found (r1 r2 e : String) : foundMsg r1 r2 ≠ annoWarn e := by
  intro h
  have e2 := congrArg String.data h
  simp only [foundMsg, annoWarn, String.data_append, List.append_assoc] at e2
  exact data_append_ne 0 (by decide) (by decide) (by decide) e2

theorem annoWarn_ne_info (nm e : String) :
    "\n[INFO] Starting Step: " ++ nm ≠ annoWarn e := by
  intro h
  have e2 := congrArg String.data h
  simp only [annoWarn, String.data_append, List.append_assoc] at e2
  exact data_append_ne 0 (by decide) (by decide) (by decide) e2

theorem annoWarn_ne_cmdline (c e : String) : "Command: " ++ c ≠ annoWarn e := by
  intro h
  have e2 := congrArg String.data h
  simp only [annoWarn, String.data_append, List.append_assoc] at e2
  exact data_append_ne 0 (by decide) (by decide) (by decide) e2

theorem annoWarn_ne_success (nm e : String) :
    "[SUCCESS] " ++ nm ++ " completed.\n" ≠ annoWarn e := by
  intro h
  have e2 := congrArg String.data h
  simp only [annoWarn, String.data_append, List.append_assoc] at e2
  exact data_append_ne 1 (by decide) (by decide) (by decide) e2

theorem annoWarn_ne_errstep (nm e : String) :
    "[ERROR] " ++ nm ++ " failed." ≠ annoWarn e := by
  intro h
  have e2 := congrArg String.data h
  simp only [annoWarn, String.data_append, List.append_assoc] at e2
  exact data_append_ne 1 (by decide) (by decide) (by decide) e2

theorem annoWarn_ne_warnReport (x e : String) : warnReport x ≠ annoWarn e := by
  intro h
  have e2 := congrArg String.data h
  simp only [warnReport, annoWarn, String.data_append, List.append_assoc] at e2
  exact data_append_ne 10 (by decide) (by decide) (by decide) e2

theorem annoWarn_ne_excelSaved (p e : String) : excelSaved p ≠ annoWarn e := by
  intro h
  have e2 := congrArg String.data h
  simp only [excelSaved, annoWarn, String.data_append, List.append_assoc] at e2
  exact data_append_ne 1 (by decide) (by decide) (by decide) e2

theorem annoWarn_not_mem_okPrints (st : Stage) (e : String) :
    annoWarn e ∉ okPrints st := by
  intro hp
  rw [okPrints, List.mem_cons, List.mem_cons, List.mem_singleton] at hp
  rcases hp with h | h | h
  · exact annoWarn_ne_info st.name e h.symm
  · exact annoWarn_ne_cmdline st.cmd e h.symm
  · exact annoWarn_ne_success st.name e h.symm

theorem annoWarn_not_mem_failPrints (st : Stage) (e : String) :
    annoWarn e ∉ failPrints st := by
  intro hp
  rw [failPrints, List.mem_cons, List.mem_cons, List.mem_singleton] at hp
  rcases hp with h | h | h
  · exact annoWarn_ne_info st.name e h.symm
  · exact annoWarn_ne_cmdline st.cmd e h.symm
  · exact annoWarn_ne_errstep st.name e h.symm

theorem annoWarn_not_mem_flatMap_ok (ss : List Stage) (e : String) :
    annoWarn e ∉ ss.flatMap okPrints := by
  intro hp
  rcases List.mem_flatMap.mp hp with ⟨u, _, hu⟩
  exact annoWarn_not_mem_okPrints u e hu

theorem annoWarn_not_mem_reportPrints (d s : String) (w : World) (e : String) :
    annoWarn e ∉ reportPrints d s w := by
  intro hp
  rcases hr : read_csv w.vcfLines with e2 | rows
  · simp only [reportPrints, hr, List.mem_singleton] at hp
    exact annoWarn_ne_warnReport e2 e hp.symm
  · rcases hx : w.excelErr with _ | e3
    · simp only [reportPrints, hr, hx, List.mem_singleton] at hp
      exact annoWarn_ne_excelSaved (excel_output d s) e hp.symm
    · simp only [reportPrints, hr, hx, List.mem_singleton] at hp
      exact annoWarn_ne_warnReport e3 e hp.symm

/-- Claim C10: the `except` branch of the annotation block is dead code —
the `[WARNING] Annotation step failed or skipped` message is never among
the printed lines of any run, and the skip notice is printed on every run
that reaches step 5. -/
theorem claim_C10_warning_never_printed (d s : String) (w : World) :
    (∀ e, annoWarn e ∉ (mainRun d s w).printed) ∧
    ((¬ (pipelineInputs d w).length < 2) →
      (∀ st ∈ stepsOf d s w, w.exit st.cmd = 0) →
      skipMsg ∈ (mainRun d s w).printed) := by
  constructor
  · intro e hmem
    by_cases hlen : (pipelineInputs d w).length < 2
    · rw [mainRun_noInput d s w hlen] at hmem
      dsimp only at hmem
      rw [List.mem_cons, List.mem_singleton] at hmem
      rcases hmem with h | h
      · exact annoWarn_ne_banner e h.symm
      · exact annoWarn_ne_err d e h.symm
    · rcases stages_cases w (stepsOf d s w) with hall | ⟨ss₁, st, ss₂, hdec, hpre, hf⟩
      · rw [mainRun_allOk d s w hlen hall] at hmem
        dsimp only at hmem
        rcases List.mem_append.mp hmem with h1 | hfin
        · rcases List.mem_append.mp h1 with h2 | hrp
          · rcases List.mem_append.mp h2 with h3 | hsk
            · rcases List.mem_append.mp h3 with hbf | hflat
              · rw [List.mem_cons, List.mem_singleton] at hbf
                rcases hbf with h | h
                · exact annoWarn_ne_banner e h.symm
                · exact annoWarn_ne_found _ _ e h.symm
              · exact annoWarn_not_mem_flatMap_ok _ e hflat
            · rw [List.mem_cons, List.mem_singleton] at hsk
              rcases hsk with h | h
              · exact annoWarn_ne_skip e h.symm
              · exact annoWarn_ne_reportBanner e h.symm
          · exact annoWarn_not_mem_reportPrints d s w e hrp
        · rw [List.mem_singleton] at hfin
          exact annoWarn_ne_final e hfin.symm
      · rw [mainRun_stepFail d s w hlen ss₁ st ss₂ hdec hpre hf] at hmem
        dsimp only at hmem
        rcases List.mem_append.mp hmem with h1 | hfail
        · rcases List.mem_append.mp h1 with hbf | hflat
          · rw [List.mem_cons, List.mem_singleton] at hbf
            rcases hbf with h | h
            · exact annoWarn_ne_banner e h.symm
            · exact annoWarn_ne_found _ _ e h.symm
          · exact annoWarn_not_mem_flatMap_ok _ e hflat
        · exact annoWarn_not_mem_failPrints st e hfail
  · intro hlen hok
    rw [mainRun_allOk d s w hlen hok]
    simp

/-- Witness for C10: the completed run of `wAllOk` prints the skip notice
and never the dead warning. -/
theorem claim_C10_witness :
    (¬ (pipelineInputs DATA_DIR wAllOk).length < 2) ∧
    (∀ st ∈ stepsOf DATA_DIR SAMPLE_ID wAllOk, wAllOk.exit st.cmd = 0) ∧
    ((∀ e, annoWarn e ∉ (mainRun DATA_DIR SAMPLE_ID wAllOk).printed) ∧
      ((¬ (pipelineInputs DATA_DIR wAllOk).length < 2) →
        (∀ st ∈ stepsOf DATA_DIR SAMPLE_ID wAllOk, wAllOk.exit st.cmd = 0) →
        skipMsg ∈ (mainRun DATA_DIR SAMPLE_ID wAllOk).printed)) :=
  ⟨by decide, by decide, claim_C10_warning_never_printed DATA_DIR SAMPLE_ID wAllOk⟩

end ThyroScope
